import Mathlib

/-!
Verification of the recurring-schedule materialization and status-automation
engine of `streamlit_app.py` (Abfahrten-JDS).

Shallow embedding conventions:
* Zoned datetimes are modelled as wall-clock seconds (`ℤ`) since an epoch
  that falls on a Monday at 00:00 local time, so `weekday = (t / 86400) % 7`
  with Monday = 0 — exactly the arithmetic Python's `datetime` performs on
  same-timezone values.  `timedelta(minutes=m)` is `m * 60` seconds, etc.
* Python `//` and `%` on ints (floor division, non-negative remainder for a
  positive modulus) coincide with Lean's `Int./` (ediv) and `Int.%` (emod)
  for positive divisors, so the translation of `(target - today) % 7` is
  literal.
* The `departures` table is a `List` of rows; the UNIQUE index on
  `source_key` together with `except sqlite3.IntegrityError: pass` is
  modelled by insert-if-key-absent.
* Status strings ("GEPLANT", "BEREIT", "ABGESCHLOSSEN", "STORNIERT") are a
  closed enumeration, as the engine only compares them to these constants.
-/

namespace Abfahrten

/-- Constant `COUNTDOWN_START_HOURS = 3` from the configuration block. -/
def COUNTDOWN_START_HOURS : ℤ := 3

/-- Constant `AUTO_COMPLETE_AFTER_MIN = 20` from the configuration block. -/
def AUTO_COMPLETE_AFTER_MIN : ℤ := 20

/-- Constant `KEEP_COMPLETED_MINUTES = 10` from the configuration block. -/
def KEEP_COMPLETED_MINUTES : ℤ := 10

/-- Constant `MATERIALIZE_TOURS_HOURS_BEFORE = 12` from the configuration block. -/
def MATERIALIZE_TOURS_HOURS_BEFORE : ℤ := 12

/-- Constant `DISPLAY_WINDOW_HOURS = 12` from the configuration block. -/
def DISPLAY_WINDOW_HOURS : ℤ := 12

/-- Python `timedelta(minutes=m)` in seconds. -/
def minutesTd (m : ℤ) : ℤ := m * 60

/-- Python `timedelta(hours=h)` in seconds. -/
def hoursTd (h : ℤ) : ℤ := h * 3600

/-- Python `timedelta(days=d)` in seconds. -/
def daysTd (d : ℤ) : ℤ := d * 86400

/-- List `WEEKDAYS_DE`: the seven German weekday names, Monday first. -/
def WEEKDAYS_DE : List String :=
  ["Montag", "Dienstag", "Mittwoch", "Donnerstag", "Freitag", "Samstag", "Sonntag"]

/-- Lookup `WEEKDAY_TO_INT[name]`: index of the weekday name in `WEEKDAYS_DE`
(Montag = 0).  Total here; the engine only calls it on names it has checked
to be in `WEEKDAYS_DE`. -/
def WEEKDAY_TO_INT (name : String) : ℕ := WEEKDAYS_DE.indexOf name

/-- Python `now.weekday()` for a wall-clock-seconds timestamp (epoch is a Monday). -/
def weekdayOf (t : ℤ) : ℤ := (t / 86400) % 7

/-- Python `now.date()` as a day number. -/
def dateOf (t : ℤ) : ℤ := t / 86400

/-- Python `datetime.combine(d, time(hour, minute))` for day number `d`. -/
def combineDayTime (d : ℤ) (hour minute : ℕ) : ℤ :=
  d * 86400 + (hour : ℤ) * 3600 + (minute : ℤ) * 60

/-- Source `next_datetime_for_weekday_time(weekday_name, hour, minute)`, with the
`now_berlin()` it reads made an explicit argument. -/
def next_datetime_for_weekday_time (now : ℤ) (weekday_name : String)
    (hour minute : ℕ) : ℤ :=
  let target : ℤ := (WEEKDAY_TO_INT weekday_name : ℤ)
  let today : ℤ := weekdayOf now
  let days_ahead : ℤ := (target - today) % 7
  let candidate_date : ℤ := dateOf now + days_ahead
  let candidate_dt : ℤ := combineDayTime candidate_date hour minute
  if candidate_dt ≤ now then candidate_dt + daysTd 7 else candidate_dt

/-- Source `completion_deadline(dep_dt) = dep_dt + timedelta(minutes=AUTO_COMPLETE_AFTER_MIN)`. -/
def completion_deadline (dep_dt : ℤ) : ℤ := dep_dt + minutesTd AUTO_COMPLETE_AFTER_MIN

/-- The status strings the engine compares against, as a closed enumeration. -/
inductive Status where
  | GEPLANT
  | BEREIT
  | ABGESCHLOSSEN
  | STORNIERT
deriving DecidableEq, Repr

/-- One row of the `departures` table, joined with its location
(`load_departures_with_locations`).  `datetime`, `ready_at`, `completed_at`
are wall-clock seconds; `screen_id = none` is SQL NULL (visible to all
screens); `source_key` is the idempotency key backed by the unique index
`idx_departures_source_key`. -/
structure Departure where
  id : ℕ
  datetime : ℤ
  location_id : ℕ
  vehicle : String
  status : Status
  note : String
  ready_at : Option ℤ
  completed_at : Option ℤ
  source_key : String
  created_by : String
  screen_id : Option ℕ
  countdown_enabled : ℤ
  location_type : String
  location_active : Bool
deriving DecidableEq, Repr

/-- The per-row decision and write of `update_departure_statuses`, with the
`now_berlin()` it reads made explicit.  Terminal rows (`STORNIERT`,
`ABGESCHLOSSEN`) are skipped; otherwise the COMPLETED check
(`now >= completion_deadline(dep_dt)`) is evaluated before the READY check
(`now >= dep_dt and status != "BEREIT"`); the timestamp writes are
`COALESCE(ready_at, now)` / `COALESCE(completed_at, now)`. -/
def update_departure_status_row (now : ℤ) (d : Departure) : Departure :=
  if d.status = .STORNIERT ∨ d.status = .ABGESCHLOSSEN then d
  else if completion_deadline d.datetime ≤ now then
    { d with status := .ABGESCHLOSSEN,
             completed_at := some (d.completed_at.getD now) }
  else if d.datetime ≤ now ∧ d.status ≠ .BEREIT then
    { d with status := .BEREIT,
             ready_at := some (d.ready_at.getD now) }
  else d

/-- Source `update_departure_statuses(conn)` over the whole table: every row gets
the per-row decision applied (the two batched `executemany` writes commute
because a row is in at most one batch). -/
def update_departure_statuses (now : ℤ) (db : List Departure) : List Departure :=
  db.map (update_departure_status_row now)

/-- A whole sequence of `update_departure_statuses` passes at the given
`now` values (earliest first), acting on one row. -/
def runStatusPasses (nows : List ℤ) (d : Departure) : Departure :=
  nows.foldl (fun d n => update_departure_status_row n d) d

/-- Rank of a status in the forward order PLANNED → READY → COMPLETED
(CANCELLED is terminal and put on top so that "never changed" implies
"never decreased"). -/
def statusRank : Status → ℕ
  | .GEPLANT => 0
  | .BEREIT => 1
  | .ABGESCHLOSSEN => 2
  | .STORNIERT => 3

/-! ### String helpers: Python `strip` / `split(",")` / `isdigit` / `int` -/

/-- Python `s.split(",")` on the character list of a string. -/
def pySplitComma (cs : List Char) : List (List Char) :=
  cs.foldr
    (fun c acc =>
      if c = ',' then [] :: acc
      else
        match acc with
        | [] => [[c]]
        | g :: gs => (c :: g) :: gs)
    [[]]

/-- Python `s.strip()` on the character list of a string. -/
def pyStrip (cs : List Char) : List Char :=
  ((cs.dropWhile Char.isWhitespace).reverse.dropWhile Char.isWhitespace).reverse

/-- Python `s.isdigit()`: non-empty and all digits. -/
def pyIsDigit (cs : List Char) : Bool := !cs.isEmpty && cs.all Char.isDigit

/-- Python `int(s)` on an all-digit string. -/
def digitsToNat (cs : List Char) : ℕ :=
  cs.foldl (fun n c => 10 * n + (c.toNat - '0'.toNat)) 0

/-- Source `parse_screen_ids(value)`: `None` → `[]`; otherwise strip, split on
commas and keep the all-digit parts as ints. -/
def parse_screen_ids (v : Option String) : List ℕ :=
  match v with
  | none => []
  | some s0 =>
    let s := pyStrip s0.data
    if s.isEmpty then []
    else
      (pySplitComma s).filterMap (fun part =>
        let p := pyStrip part
        if pyIsDigit p then some (digitsToNat p) else none)

/-! ### Formatter -/

/-- Python `f"{n:02d}"` for the non-negative values `fmt_compact` feeds it. -/
def two_digit (n : ℤ) : String :=
  let s := toString n
  if s.length < 2 then "0" ++ s else s

/-- Source `fmt_compact(td)`: clamp negative timedeltas to zero, then format as
`HH:MM:SS`, or `MM:SS` when under one hour.  `td` is in seconds
(`td.total_seconds()`). -/
def fmt_compact (td : ℤ) : String :=
  let total := td
  let total := if total < 0 then 0 else total
  let h := total / 3600
  let m := (total % 3600) / 60
  let s := total % 60
  if 0 < h then two_digit h ++ ":" ++ two_digit m ++ ":" ++ two_digit s
  else two_digit m ++ ":" ++ two_digit s

/-! ### Visibility Window Filter (`get_screen_data`) -/

/-- The columns of a `screens` row that `get_screen_data` reads. -/
structure Screen where
  id : ℕ
  filter_type : String
  filter_locations : String
deriving DecidableEq, Repr

/-- The inner `visible(row)` closure of `get_screen_data`: non-COMPLETED
rows pass; COMPLETED rows pass while
`now <= (completed_at or completion_deadline(datetime)) + KEEP_COMPLETED_MINUTES`. -/
def visible_row (now : ℤ) (d : Departure) : Bool :=
  if d.status ≠ Status.ABGESCHLOSSEN then true
  else if KEEP_COMPLETED_MINUTES ≤ 0 then false
  else
    let base :=
      match d.completed_at with
      | some ca => ca
      | none => completion_deadline d.datetime
    now ≤ base + minutesTd KEEP_COMPLETED_MINUTES

/-- The `build_line_info(row)` closure of `get_screen_data`.  Translates
`int(row.get("countdown_enabled", 1) or 1) == 1` literally (`x or 1` in
Python yields `x` when `x` is a non-zero int and `1` otherwise). -/
def build_line_info (now : ℤ) (d : Departure) : String :=
  let cd_on : Bool := (if d.countdown_enabled ≠ 0 then d.countdown_enabled else 1) = 1
  if !cd_on then ""
  else if d.status = .GEPLANT then
    let delta := d.datetime - now
    if 0 ≤ delta ∧ delta ≤ hoursTd COUNTDOWN_START_HOURS then
      "Countdown: " ++ fmt_compact delta
    else ""
  else if d.status = .BEREIT then
    let parts : List String :=
      (match d.ready_at with
       | some ra => ["BEREIT seit " ++ fmt_compact (now - ra)]
       | none => []) ++
      ["Abschluss in " ++ fmt_compact (completion_deadline d.datetime - now)]
    String.intercalate " · " parts
  else ""

/-- The row-selection part of `get_screen_data(conn, screen_id)`: the
sequence of dataframe filters (active location, screen ownership, type
filter, explicit location-id filter, the `[now-20min .. now+12h]` window,
the completed-retention `visible` filter) followed by the sort on
`datetime`.  `now_berlin()` is an explicit argument; the joined departure
rows are `deps`. -/
def get_screen_data_rows (now : ℤ) (screen : Screen) (deps : List Departure) : List Departure :=
  let filter_type := if screen.filter_type = "" then "ALLE" else screen.filter_type
  let filter_locations := String.mk (pyStrip screen.filter_locations.data)
  let endOfWindow := now + hoursTd DISPLAY_WINDOW_HOURS
  let deps := deps.filter (fun d => d.location_active)
  let deps := deps.filter (fun d => d.screen_id.isNone || d.screen_id == some screen.id)
  let deps :=
    if filter_type ≠ "ALLE" then deps.filter (fun d => d.location_type == filter_type)
    else deps
  let deps :=
    if filter_locations ≠ "" then
      let ids := parse_screen_ids (some filter_locations)
      if ids ≠ [] then deps.filter (fun d => d.location_id ∈ ids) else deps
    else deps
  let window_start := now - minutesTd AUTO_COMPLETE_AFTER_MIN
  let deps := deps.filter (fun d => window_start ≤ d.datetime && d.datetime ≤ endOfWindow)
  let deps := deps.filter (fun d => visible_row now d)
  deps.mergeSort (fun a b => a.datetime ≤ b.datetime)

/-! ### Claim C6: the recurrence resolver -/

/-- C6: for every known weekday name, in-range time-of-day and now, the
resolver's result is strictly after `now`, at most `now + 7 days`, matches
the requested weekday and time-of-day exactly, and equals today's slot when
that slot is still ahead, rolling to next week when it has passed. -/
theorem resolver_next_occurrence (now : ℤ) (w : String) (hw : w ∈ WEEKDAYS_DE)
    (hour minute : ℕ) (hh : hour < 24) (hm : minute < 60) :
    now < next_datetime_for_weekday_time now w hour minute ∧
    next_datetime_for_weekday_time now w hour minute ≤ now + daysTd 7 ∧
    weekdayOf (next_datetime_for_weekday_time now w hour minute) = (WEEKDAY_TO_INT w : ℤ) ∧
    (next_datetime_for_weekday_time now w hour minute) % 86400
      = (hour : ℤ) * 3600 + (minute : ℤ) * 60 ∧
    (weekdayOf now = (WEEKDAY_TO_INT w : ℤ) →
      (now < combineDayTime (dateOf now) hour minute →
        next_datetime_for_weekday_time now w hour minute
          = combineDayTime (dateOf now) hour minute) ∧
      (combineDayTime (dateOf now) hour minute ≤ now →
        next_datetime_for_weekday_time now w hour minute
          = combineDayTime (dateOf now) hour minute + daysTd 7)) := by
  have hlt : WEEKDAY_TO_INT w < 7 := by
    have := List.indexOf_lt_length.mpr hw
    simpa [WEEKDAY_TO_INT, WEEKDAYS_DE] using this
  have hcast : (0 : ℤ) ≤ (WEEKDAY_TO_INT w : ℤ) ∧ (WEEKDAY_TO_INT w : ℤ) < 7 :=
    ⟨Int.ofNat_nonneg _, by exact_mod_cast hlt⟩
  obtain ⟨h0, h7⟩ := hcast
  set t : ℤ := (WEEKDAY_TO_INT w : ℤ) with ht
  have hhz : (hour : ℤ) < 24 := by exact_mod_cast hh
  have hmz : (minute : ℤ) < 60 := by exact_mod_cast hm
  have hh0 : (0 : ℤ) ≤ (hour : ℤ) := Int.ofNat_nonneg _
  have hm0 : (0 : ℤ) ≤ (minute : ℤ) := Int.ofNat_nonneg _
  simp only [next_datetime_for_weekday_time, weekdayOf, dateOf, combineDayTime, daysTd, ← ht]
  split <;> constructor <;> omega

/-- C6 witness: Tuesday 08:30 requested at a Monday-noon `now`
(now = 43200 s, i.e. Monday 12:00 of week 0). -/
theorem resolver_next_occurrence_witness :
    (43200 : ℤ) < next_datetime_for_weekday_time 43200 "Dienstag" 8 30 ∧
    next_datetime_for_weekday_time 43200 "Dienstag" 8 30 ≤ 43200 + daysTd 7 ∧
    weekdayOf (next_datetime_for_weekday_time 43200 "Dienstag" 8 30)
      = (WEEKDAY_TO_INT "Dienstag" : ℤ) ∧
    (next_datetime_for_weekday_time 43200 "Dienstag" 8 30) % 86400
      = (8 : ℤ) * 3600 + (30 : ℤ) * 60 ∧
    (weekdayOf 43200 = (WEEKDAY_TO_INT "Dienstag" : ℤ) →
      (43200 < combineDayTime (dateOf 43200) 8 30 →
        next_datetime_for_weekday_time 43200 "Dienstag" 8 30
          = combineDayTime (dateOf 43200) 8 30) ∧
      (combineDayTime (dateOf 43200) 8 30 ≤ 43200 →
        next_datetime_for_weekday_time 43200 "Dienstag" 8 30
          = combineDayTime (dateOf 43200) 8 30 + daysTd 7)) :=
  resolver_next_occurrence 43200 "Dienstag" (by decide) 8 30 (by decide) (by decide)

/-! ### Status automation: helper lemmas and claims C3, C4, C5, C9 -/

lemma step_terminal_fix (n : ℤ) (d : Departure)
    (h : d.status = .ABGESCHLOSSEN ∨ d.status = .STORNIERT) :
    update_departure_status_row n d = d := by
  unfold update_departure_status_row
  rw [if_pos (Or.comm.mp h)]

lemma run_terminal_fix (nows : List ℤ) (d : Departure)
    (h : d.status = .ABGESCHLOSSEN ∨ d.status = .STORNIERT) :
    runStatusPasses nows d = d := by
  induction nows with
  | nil => rfl
  | cons n ns ih =>
    show runStatusPasses ns (update_departure_status_row n d) = d
    rw [step_terminal_fix n d h, ih]

lemma step_rank_mono (n : ℤ) (d : Departure) :
    statusRank d.status ≤ statusRank (update_departure_status_row n d).status := by
  unfold update_departure_status_row
  split
  · exact le_refl _
  · split
    · rename_i hterm _
      cases hd : d.status <;> simp [statusRank]
      all_goals simp_all
    · split
      · rename_i hterm _ hrdy
        cases hd : d.status <;> simp [statusRank]
        all_goals simp_all
      · exact le_refl _

lemma step_ready_at_set (n : ℤ) (d : Departure) (r : ℤ) (h : d.ready_at = some r) :
    (update_departure_status_row n d).ready_at = some r := by
  unfold update_departure_status_row
  split
  · exact h
  · split
    · exact h
    · split
      · simp [h]
      · exact h

lemma step_completed_at_set (n : ℤ) (d : Departure) (c : ℤ) (h : d.completed_at = some c) :
    (update_departure_status_row n d).completed_at = some c := by
  unfold update_departure_status_row
  split
  · exact h
  · split
    · simp [h]
    · split
      · exact h
      · exact h

lemma run_ready_at_set (nows : List ℤ) (d : Departure) (r : ℤ) (h : d.ready_at = some r) :
    (runStatusPasses nows d).ready_at = some r := by
  induction nows generalizing d with
  | nil => exact h
  | cons n ns ih => exact ih _ (step_ready_at_set n d r h)

lemma run_completed_at_set (nows : List ℤ) (d : Departure) (c : ℤ) (h : d.completed_at = some c) :
    (runStatusPasses nows d).completed_at = some c := by
  induction nows generalizing d with
  | nil => exact h
  | cons n ns ih => exact ih _ (step_completed_at_set n d c h)

lemma step_idem (n : ℤ) (d : Departure) :
    update_departure_status_row n (update_departure_status_row n d)
      = update_departure_status_row n d := by
  unfold update_departure_status_row
  split
  · rfl
  · split
    · simp
    · split
      · rename_i hterm hlate hrdy
        simp [hlate]
      · rfl

/-- C3 -/
theorem auto_complete_jumps_straight (now : ℤ) (d : Departure)
    (hterm : d.status ≠ .STORNIERT ∧ d.status ≠ .ABGESCHLOSSEN)
    (hlate : completion_deadline d.datetime ≤ now) :
    (update_departure_status_row now d).status = .ABGESCHLOSSEN ∧
    (update_departure_status_row now d).completed_at = some (d.completed_at.getD now) ∧
    (update_departure_status_row now d).ready_at = d.ready_at := by
  unfold update_departure_status_row
  rw [if_neg (by tauto), if_pos hlate]
  exact ⟨rfl, rfl, rfl⟩

/-- C3 witness -/
theorem auto_complete_jumps_straight_witness :
    (update_departure_status_row 0
      { id := 1, datetime := -1500, location_id := 1, vehicle := "", status := .GEPLANT,
        note := "", ready_at := none, completed_at := none, source_key := "k",
        created_by := "", screen_id := none, countdown_enabled := 1,
        location_type := "", location_active := true }).status = .ABGESCHLOSSEN ∧
    (update_departure_status_row 0
      { id := 1, datetime := -1500, location_id := 1, vehicle := "", status := .GEPLANT,
        note := "", ready_at := none, completed_at := none, source_key := "k",
        created_by := "", screen_id := none, countdown_enabled := 1,
        location_type := "", location_active := true }).completed_at
      = some ((none : Option ℤ).getD 0) ∧
    (update_departure_status_row 0
      { id := 1, datetime := -1500, location_id := 1, vehicle := "", status := .GEPLANT,
        note := "", ready_at := none, completed_at := none, source_key := "k",
        created_by := "", screen_id := none, countdown_enabled := 1,
        location_type := "", location_active := true }).ready_at = none :=
  auto_complete_jumps_straight 0 _ (by decide) (by decide)

/-- C4 -/
theorem status_moves_forward_only (d : Departure) (n : ℤ) (nows : List ℤ) :
    statusRank d.status ≤ statusRank (update_departure_status_row n d).status ∧
    (d.status = .ABGESCHLOSSEN ∨ d.status = .STORNIERT →
      runStatusPasses nows d = d) :=
  ⟨step_rank_mono n d, run_terminal_fix nows d⟩

/-- C4 witness -/
theorem status_moves_forward_only_witness :
    statusRank ({ id := 2, datetime := 0, location_id := 1, vehicle := "", status := .ABGESCHLOSSEN,
                  note := "", ready_at := none, completed_at := some 3, source_key := "k2",
                  created_by := "", screen_id := none, countdown_enabled := 1,
                  location_type := "", location_active := true } : Departure).status
        ≤ statusRank (update_departure_status_row 5
            { id := 2, datetime := 0, location_id := 1, vehicle := "", status := .ABGESCHLOSSEN,
              note := "", ready_at := none, completed_at := some 3, source_key := "k2",
              created_by := "", screen_id := none, countdown_enabled := 1,
              location_type := "", location_active := true }).status ∧
    runStatusPasses [5, 9000]
        { id := 2, datetime := 0, location_id := 1, vehicle := "", status := .ABGESCHLOSSEN,
          note := "", ready_at := none, completed_at := some 3, source_key := "k2",
          created_by := "", screen_id := none, countdown_enabled := 1,
          location_type := "", location_active := true } =
        { id := 2, datetime := 0, location_id := 1, vehicle := "", status := .ABGESCHLOSSEN,
          note := "", ready_at := none, completed_at := some 3, source_key := "k2",
          created_by := "", screen_id := none, countdown_enabled := 1,
          location_type := "", location_active := true } := by
  refine ⟨(status_moves_forward_only _ 5 [5, 9000]).1, (status_moves_forward_only _ 5 [5, 9000]).2 ?_⟩
  exact Or.inl rfl

/-- C5 -/
theorem timestamps_never_overwritten (nows : List ℤ) (d : Departure) :
    (∀ r, d.ready_at = some r → (runStatusPasses nows d).ready_at = some r) ∧
    (∀ c, d.completed_at = some c → (runStatusPasses nows d).completed_at = some c) ∧
    (∀ n, update_departure_status_row n (update_departure_status_row n d)
        = update_departure_status_row n d) :=
  ⟨fun r h => run_ready_at_set nows d r h,
   fun c h => run_completed_at_set nows d c h,
   fun n => step_idem n d⟩

/-- C5 witness -/
theorem timestamps_never_overwritten_witness :
    (runStatusPasses [100, 5000]
      { id := 3, datetime := 0, location_id := 1, vehicle := "", status := .BEREIT,
        note := "", ready_at := some 7, completed_at := none, source_key := "k3",
        created_by := "", screen_id := none, countdown_enabled := 1,
        location_type := "", location_active := true }).ready_at = some 7 :=
  (timestamps_never_overwritten [100, 5000] _).1 7 rfl

/-- Invariant carried through a run of status passes: every set timestamp is
at most `lo`, both-set timestamps are ordered, and a set `completed_at`
implies a terminal COMPLETED status. -/
def TimestampsBounded (lo : ℤ) (d : Departure) : Prop :=
  (∀ r, d.ready_at = some r → r ≤ lo) ∧
  (∀ c, d.completed_at = some c → c ≤ lo) ∧
  (∀ r c, d.ready_at = some r → d.completed_at = some c → r ≤ c) ∧
  (∀ c, d.completed_at = some c → d.status = .ABGESCHLOSSEN)

lemma timestampsBounded_mono {lo lo' : ℤ} (h : lo ≤ lo') {d : Departure}
    (hd : TimestampsBounded lo d) : TimestampsBounded lo' d := by
  obtain ⟨h1, h2, h3, h4⟩ := hd
  exact ⟨fun r hr => le_trans (h1 r hr) h, fun c hc => le_trans (h2 c hc) h, h3, h4⟩

lemma step_timestampsBounded {lo : ℤ} {d : Departure} (n : ℤ)
    (hlo : lo ≤ n) (hd : TimestampsBounded lo d) :
    TimestampsBounded n (update_departure_status_row n d) := by
  obtain ⟨h1, h2, h3, h4⟩ := hd
  have hd' : TimestampsBounded n d :=
    timestampsBounded_mono hlo ⟨h1, h2, h3, h4⟩
  obtain ⟨g1, g2, g3, g4⟩ := hd'
  unfold update_departure_status_row
  split
  · exact ⟨g1, g2, g3, g4⟩
  · rename_i hterm
    split
    · refine ⟨g1, ?_, ?_, ?_⟩
      · intro c hc
        simp only [Option.getD] at hc
        cases hcd : d.completed_at with
        | some c0 => rw [hcd] at hc; simp at hc; exact hc ▸ g2 c0 hcd
        | none => rw [hcd] at hc; simp at hc; omega
      · intro r c hr hc
        simp only at hr hc
        cases hcd : d.completed_at with
        | some c0 =>
          rw [hcd] at hc; simp at hc
          exact hc ▸ g3 r c0 hr hcd
        | none =>
          rw [hcd] at hc; simp at hc
          have := g1 r hr
          omega
      · intro c _
        rfl
    · split
      · rename_i hrdy
        refine ⟨?_, g2, ?_, ?_⟩
        · intro r hr
          simp only at hr
          cases hrd : d.ready_at with
          | some r0 => rw [hrd] at hr; simp at hr; exact hr ▸ g1 r0 hrd
          | none => rw [hrd] at hr; simp at hr; omega
        · intro r c hr hc
          simp only at hr hc
          exfalso
          cases hcd : d.completed_at with
          | some c0 =>
            have := g4 c0 hcd
            exact absurd (Or.inr this) hterm
          | none => rw [hcd] at hc; simp at hc
        · intro c hc
          simp only at hc
          cases hcd : d.completed_at with
          | some c0 =>
            have := g4 c0 hcd
            exact absurd (Or.inr this) hterm
          | none => rw [hcd] at hc; simp at hc
      · exact ⟨g1, g2, g3, g4⟩

lemma run_timestampsBounded {lo : ℤ} {d : Departure} (nows : List ℤ)
    (hch : nows.Pairwise (· ≤ ·)) (hlo : ∀ n ∈ nows, lo ≤ n)
    (hd : TimestampsBounded lo d) :
    ∃ hi, TimestampsBounded hi (runStatusPasses nows d) := by
  induction nows generalizing d lo with
  | nil => exact ⟨lo, hd⟩
  | cons n ns ih =>
    have hstep : TimestampsBounded n (update_departure_status_row n d) :=
      step_timestampsBounded n (hlo n (by simp)) hd
    exact ih (List.Pairwise.of_cons hch)
      (fun m hm => (List.pairwise_cons.mp hch).1 m hm) hstep

/-- C9 -/
theorem ready_le_completed (nows : List ℤ) (hsorted : nows.Pairwise (· ≤ ·))
    (d : Departure) (hr : d.ready_at = none) (hc : d.completed_at = none)
    (r c : ℤ) (hr2 : (runStatusPasses nows d).ready_at = some r)
    (hc2 : (runStatusPasses nows d).completed_at = some c) : r ≤ c := by
  cases nows with
  | nil =>
    exfalso
    rw [runStatusPasses] at hr2
    simp at hr2
    rw [hr] at hr2
    exact Option.noConfusion hr2
  | cons n ns =>
    have hbase : TimestampsBounded n d := by
      refine ⟨?_, ?_, ?_, ?_⟩ <;> intro x hx <;> rw [hr2] at * <;> simp_all
    have := @run_timestampsBounded n _ (n :: ns) hsorted
      (fun m hm => by
        rcases List.mem_cons.mp hm with h | h
        · omega
        · exact (List.pairwise_cons.mp hsorted).1 m h) hbase
    obtain ⟨hi, h1, h2, h3, h4⟩ := this
    exact h3 r c hr2 hc2

/-- C9 witness: a fresh PLANNED row (occurrence 0) run through passes at
nows 0 and 2000 gets ready_at = 0 and completed_at = 2000, and 0 ≤ 2000. -/
theorem ready_le_completed_witness : (0 : ℤ) ≤ 2000 :=
  ready_le_completed [0, 2000] (by decide)
    { id := 4, datetime := 0, location_id := 1, vehicle := "", status := .GEPLANT,
      note := "", ready_at := none, completed_at := none, source_key := "k4",
      created_by := "", screen_id := none, countdown_enabled := 1,
      location_type := "", location_active := true } rfl rfl 0 2000
    (by decide) (by decide)

/-! ### Schedule Materializer (`materialize_tours_to_departures`) -/

/-- One row of the materializer's SELECT: `tours` joined with `tour_stops`
and `locations` — one row per (tour, stop).  `tour_screen_ids` is the raw
comma-separated TEXT column (NULL → `none`); `hour`/`minute` are the raw
INTEGER columns (SQLite INTEGER values print as digit strings, so the
`str(..).isdigit()` guard passes and the value is used as-is). -/
structure TourRow where
  tour_id : ℕ
  weekday : String
  hour : ℕ
  minute : ℕ
  tour_note : String
  tour_active : Bool
  tour_screen_ids : Option String
  tour_countdown_enabled : ℤ
  location_id : ℕ
  position : ℕ
  location_active : Bool
deriving DecidableEq, Repr

/-- Normalization `minute = 0 if minute not in (0, 30) else minute`. -/
def tour_row_minute (r : TourRow) : ℕ :=
  if r.minute = 0 ∨ r.minute = 30 then r.minute else 0

/-- The occurrence the materializer computes for a joined row:
`next_datetime_for_weekday_time(weekday, hour, minute)` after the minute
normalization. -/
def tour_row_occurrence (now : ℤ) (r : TourRow) : ℤ :=
  next_datetime_for_weekday_time now r.weekday r.hour (tour_row_minute r)

/-- The `departures` row the materializer INSERTs for a (row, screen) pair:
status `GEPLANT`, unset timestamps, `created_by = "TOUR_AUTO"`, idempotency
key `TOUR:{tour_id}:{pos}:{sid}:{dep_dt}`.  The SQLite-assigned rowid and
the joined location columns are not part of the INSERT; they are filled
with fixed defaults. -/
def mkTourDeparture (dep_dt : ℤ) (r : TourRow) (sid : ℕ) : Departure :=
  { id := 0
    datetime := dep_dt
    location_id := r.location_id
    vehicle := ""
    status := .GEPLANT
    note := String.mk (pyStrip r.tour_note.data)
    ready_at := none
    completed_at := none
    source_key := "TOUR:" ++ toString r.tour_id ++ ":" ++ toString r.position ++ ":"
                    ++ toString sid ++ ":" ++ toString dep_dt
    created_by := "TOUR_AUTO"
    screen_id := some sid
    countdown_enabled := r.tour_countdown_enabled
    location_type := ""
    location_active := true }

/-- An `INSERT` under the UNIQUE `source_key` index with
`except sqlite3.IntegrityError: pass`: insert only when no row with the
same key exists. -/
def insert_departure (db : List Departure) (d : Departure) : List Departure :=
  if db.any (fun e => e.source_key == d.source_key) then db else db ++ [d]

/-- The departures one joined row attempts to INSERT during a pass at
`now` with window `window` (seconds): nothing if the row was filtered out
(`tour_active`/`location_active`), skipped (`not screen_ids or weekday not
in WEEKDAYS_DE`) or outside the window; otherwise one per target screen
id. -/
def tour_row_departures (now : ℤ) (window : ℤ) (r : TourRow) : List Departure :=
  if r.tour_active && r.location_active then
    let screen_ids := parse_screen_ids r.tour_screen_ids
    if screen_ids = [] ∨ r.weekday ∉ WEEKDAYS_DE then []
    else
      let dep_dt := tour_row_occurrence now r
      if window < dep_dt - now then []
      else if daysTd 1 < now - dep_dt then []
      else screen_ids.map (fun sid => mkTourDeparture dep_dt r sid)
  else []

/-- Source `materialize_tours_to_departures(conn, create_window_hours)`: for every
joined row, attempt each of its inserts in order, ignoring idempotency-key
conflicts.  `now_berlin()` and the joined rows are explicit arguments. -/
def materialize_tours_to_departures (now : ℤ) (create_window_hours : ℤ)
    (tours : List TourRow) (db : List Departure) : List Departure :=
  let window := hoursTd create_window_hours
  tours.foldl (fun db r => (tour_row_departures now window r).foldl insert_departure db) db

/-- Whether a row with the given idempotency key exists. -/
def has_key (db : List Departure) (k : String) : Bool :=
  db.any (fun e => e.source_key == k)

/-! ### Visibility: membership characterization and claims C1, C10 -/

set_option maxHeartbeats 1600000 in
/-- Membership in the filtered, sorted screen rows, spelled out filter by
filter. -/
lemma mem_get_screen_data_rows {now : ℤ} {screen : Screen} {deps : List Departure}
    {d : Departure} :
    d ∈ get_screen_data_rows now screen deps ↔
      d ∈ deps ∧ d.location_active = true ∧
      (d.screen_id.isNone || d.screen_id == some screen.id) = true ∧
      ((if screen.filter_type = "" then "ALLE" else screen.filter_type) ≠ "ALLE" →
        d.location_type = (if screen.filter_type = "" then "ALLE" else screen.filter_type)) ∧
      (String.mk (pyStrip screen.filter_locations.data) ≠ "" →
        parse_screen_ids (some (String.mk (pyStrip screen.filter_locations.data))) ≠ [] →
        d.location_id ∈ parse_screen_ids (some (String.mk (pyStrip screen.filter_locations.data)))) ∧
      (now - minutesTd AUTO_COMPLETE_AFTER_MIN ≤ d.datetime ∧
        d.datetime ≤ now + hoursTd DISPLAY_WINDOW_HOURS) ∧
      visible_row now d = true := by
  simp only [get_screen_data_rows]
  rw [List.mem_mergeSort]
  repeat' split
  all_goals
    simp only [List.mem_filter, List.mem_mergeSort, Bool.and_eq_true, decide_eq_true_eq,
      beq_iff_eq, and_assoc]
  all_goals tauto

/-- C1 (amended): for a COMPLETED row that passes the active-location,
screen-ownership, type-filter and location-id-filter steps, visibility is
exactly: occurrence within `[now − AUTO_COMPLETE_AFTER_MIN, now +
DISPLAY_WINDOW_HOURS]` AND `now ≤ (completed_at, or occurrence +
AUTO_COMPLETE_AFTER_MIN if unset) + KEEP_COMPLETED_MINUTES`.  The occurrence
window is applied first and is not re-opened for completed rows: retention
only further restricts. -/
theorem completed_visibility_window (now : ℤ) (screen : Screen) (deps : List Departure)
    (d : Departure) (hmem : d ∈ deps) (hstatus : d.status = .ABGESCHLOSSEN)
    (hact : d.location_active = true)
    (hown : (d.screen_id.isNone || d.screen_id == some screen.id) = true)
    (htype : (if screen.filter_type = "" then "ALLE" else screen.filter_type) ≠ "ALLE" →
      d.location_type = (if screen.filter_type = "" then "ALLE" else screen.filter_type))
    (hloc : String.mk (pyStrip screen.filter_locations.data) ≠ "" →
      parse_screen_ids (some (String.mk (pyStrip screen.filter_locations.data))) ≠ [] →
      d.location_id ∈ parse_screen_ids (some (String.mk (pyStrip screen.filter_locations.data)))) :
    d ∈ get_screen_data_rows now screen deps ↔
      (now - minutesTd AUTO_COMPLETE_AFTER_MIN ≤ d.datetime ∧
       d.datetime ≤ now + hoursTd DISPLAY_WINDOW_HOURS ∧
       now ≤ d.completed_at.getD (completion_deadline d.datetime)
              + minutesTd KEEP_COMPLETED_MINUTES) := by
  rw [mem_get_screen_data_rows]
  have hv : visible_row now d = true ↔
      now ≤ d.completed_at.getD (completion_deadline d.datetime)
              + minutesTd KEEP_COMPLETED_MINUTES := by
    simp only [visible_row, hstatus]
    norm_num [KEEP_COMPLETED_MINUTES]
    cases d.completed_at <;> simp [Option.getD]
  constructor
  · rintro ⟨_, _, _, _, _, ⟨hw1, hw2⟩, hvz⟩
    exact ⟨hw1, hw2, hv.mp hvz⟩
  · rintro ⟨hw1, hw2, hr⟩
    exact ⟨hmem, hact, hown, htype, hloc, ⟨hw1, hw2⟩, hv.mpr hr⟩

/-- C1 amended witness: at now = 100000, a COMPLETED row with occurrence
99000 (within the window) and completed_at 99460 (9 min ago) is visible. -/
theorem completed_visibility_window_witness :
    ({ id := 9, datetime := 99000, location_id := 5, vehicle := "",
       status := .ABGESCHLOSSEN, note := "", ready_at := none,
       completed_at := some 99460, source_key := "w1", created_by := "",
       screen_id := none, countdown_enabled := 1, location_type := "",
       location_active := true } : Departure) ∈
      get_screen_data_rows 100000 { id := 1, filter_type := "ALLE", filter_locations := "" }
        [{ id := 9, datetime := 99000, location_id := 5, vehicle := "",
           status := .ABGESCHLOSSEN, note := "", ready_at := none,
           completed_at := some 99460, source_key := "w1", created_by := "",
           screen_id := none, countdown_enabled := 1, location_type := "",
           location_active := true }] :=
  (completed_visibility_window 100000 _ _ _ (by decide) rfl rfl (by decide)
    (by intro h; exact absurd rfl h) (by intro h; exact absurd rfl h)).mpr (by decide)

/-- C1 counterexample: a COMPLETED row completed 9 minutes ago (within
retention, so the claim says it is kept) whose occurrence is 30 minutes old
is dropped by `get_screen_data`: the `now − AUTO_COMPLETE_AFTER_MIN`
occurrence floor is never re-opened for completed rows. -/
theorem completed_readmission_counterexample :
    (100000 : ℤ) ≤ (99460 : ℤ) + minutesTd KEEP_COMPLETED_MINUTES ∧
    ({ id := 9, datetime := 98200, location_id := 5, vehicle := "",
        status := .ABGESCHLOSSEN, note := "", ready_at := none,
        completed_at := some 99460, source_key := "c1", created_by := "",
        screen_id := none, countdown_enabled := 1, location_type := "",
        location_active := true } : Departure) ∉
      get_screen_data_rows 100000 { id := 1, filter_type := "ALLE", filter_locations := "" }
        [{ id := 9, datetime := 98200, location_id := 5, vehicle := "",
           status := .ABGESCHLOSSEN, note := "", ready_at := none,
           completed_at := some 99460, source_key := "c1", created_by := "",
           screen_id := none, countdown_enabled := 1, location_type := "",
           location_active := true }] := by
  refine ⟨by decide, ?_⟩
  rw [mem_get_screen_data_rows]
  rintro ⟨-, -, -, -, -, ⟨hw1, -⟩, -⟩
  revert hw1
  decide

/-- C10: `fmt_compact` clamps every negative timedelta to zero, and the
PLANNED countdown branch of `build_line_info` only produces output when
`0 ≤ occurrence − now ≤ COUNTDOWN_START_HOURS`, so no rendered countdown or
status duration is negative. -/
theorem countdown_durations_nonneg :
    (∀ td : ℤ, td < 0 → fmt_compact td = fmt_compact 0) ∧
    (∀ (now : ℤ) (d : Departure), d.status = Status.GEPLANT →
      build_line_info now d ≠ "" →
      0 ≤ d.datetime - now ∧ d.datetime - now ≤ hoursTd COUNTDOWN_START_HOURS) := by
  constructor
  · intro td h
    simp [fmt_compact, if_pos h]
  · intro now d hst hne
    by_cases hg : 0 ≤ d.datetime - now ∧ d.datetime - now ≤ hoursTd COUNTDOWN_START_HOURS
    · exact hg
    · refine absurd ?_ hne
      simp only [build_line_info, hst, eq_self_iff_true, if_true, if_neg hg]
      split <;> first | rfl | exact ite_self ""

/-- C10 witness: `fmt_compact` at −5 equals `fmt_compact` at 0, and a
PLANNED row one hour ahead with a non-empty countdown line is within the
countdown window. -/
theorem countdown_durations_nonneg_witness :
    fmt_compact (-5) = fmt_compact 0 ∧
    (0 ≤ ({ id := 9, datetime := 3600, location_id := 5, vehicle := "",
            status := .GEPLANT, note := "", ready_at := none,
            completed_at := none, source_key := "w10", created_by := "",
            screen_id := none, countdown_enabled := 1, location_type := "",
            location_active := true } : Departure).datetime - 0 ∧
      ({ id := 9, datetime := 3600, location_id := 5, vehicle := "",
         status := .GEPLANT, note := "", ready_at := none,
         completed_at := none, source_key := "w10", created_by := "",
         screen_id := none, countdown_enabled := 1, location_type := "",
         location_active := true } : Departure).datetime - 0
        ≤ hoursTd COUNTDOWN_START_HOURS) :=
  ⟨countdown_durations_nonneg.1 (-5) (by decide),
   countdown_durations_nonneg.2 0 _ rfl (by decide)⟩

/-! ### Idempotency-key lemmas and claim C2 -/

lemma has_key_insert_mono {db : List Departure} {k : String} (d : Departure)
    (h : has_key db k = true) : has_key (insert_departure db d) k = true := by
  unfold insert_departure
  split
  · exact h
  · unfold has_key at *
    simp only [List.any_append, Bool.or_eq_true]
    exact Or.inl h

lemma has_key_insert_self (db : List Departure) (d : Departure) :
    has_key (insert_departure db d) d.source_key = true := by
  unfold insert_departure
  split
  · assumption
  · unfold has_key
    simp

lemma insert_noop {db : List Departure} {d : Departure}
    (h : has_key db d.source_key = true) : insert_departure db d = db := by
  unfold has_key at h
  unfold insert_departure
  rw [if_pos h]

lemma has_key_foldl_mono {db : List Departure} {k : String} (A : List Departure)
    (h : has_key db k = true) :
    has_key (A.foldl insert_departure db) k = true := by
  induction A generalizing db with
  | nil => exact h
  | cons a as ih => exact ih (has_key_insert_mono a h)

lemma foldl_insert_has_keys (A : List Departure) (db : List Departure) :
    ∀ a ∈ A, has_key (A.foldl insert_departure db) a.source_key = true := by
  induction A generalizing db with
  | nil => intro a ha; cases ha
  | cons b bs ih =>
    intro a ha
    rcases List.mem_cons.mp ha with h | h
    · subst h
      exact has_key_foldl_mono bs (has_key_insert_self db a)
    · exact ih (insert_departure db b) a h

lemma foldl_insert_noop {A db : List Departure}
    (h : ∀ a ∈ A, has_key db a.source_key = true) :
    A.foldl insert_departure db = db := by
  induction A with
  | nil => rfl
  | cons a as ih =>
    have h1 : insert_departure db a = db := insert_noop (h a (by simp))
    show as.foldl insert_departure (insert_departure db a) = db
    rw [h1]
    exact ih (fun b hb => h b (List.mem_cons_of_mem a hb))

/-- The materializer is the fold of insert-if-absent over the list of all
attempted rows. -/
lemma materialize_eq_foldl (now H : ℤ) (tours : List TourRow) (db : List Departure) :
    materialize_tours_to_departures now H tours db
      = (tours.flatMap (tour_row_departures now (hoursTd H))).foldl insert_departure db := by
  induction tours generalizing db with
  | nil => rfl
  | cons r rs ih =>
    show rs.foldl _ ((tour_row_departures now (hoursTd H) r).foldl insert_departure db) = _
    rw [List.flatMap_cons, List.foldl_append]
    exact ih _

/-- C2: running the materializer twice in a row at the same `now` and
horizon yields exactly the state after running it once — the re-run inserts
zero new rows because every idempotency key it attempts is already
present and the key conflict is silently ignored. -/
theorem materialize_idempotent (now H : ℤ) (tours : List TourRow) (db : List Departure) :
    materialize_tours_to_departures now H tours
        (materialize_tours_to_departures now H tours db)
      = materialize_tours_to_departures now H tours db := by
  rw [materialize_eq_foldl, materialize_eq_foldl]
  exact foldl_insert_noop (foldl_insert_has_keys _ db)

/-! ### Claim C7: which inserts the materializer attempts -/

/-- Membership in the inserts one joined row attempts. -/
lemma mem_tour_row_departures {now window : ℤ} {r : TourRow} {d : Departure} :
    d ∈ tour_row_departures now window r ↔
      r.tour_active = true ∧ r.location_active = true ∧
      parse_screen_ids r.tour_screen_ids ≠ [] ∧ r.weekday ∈ WEEKDAYS_DE ∧
      tour_row_occurrence now r - now ≤ window ∧
      now - tour_row_occurrence now r ≤ daysTd 1 ∧
      ∃ sid ∈ parse_screen_ids r.tour_screen_ids,
        d = mkTourDeparture (tour_row_occurrence now r) r sid := by
  unfold tour_row_departures
  repeat' split
  all_goals
    simp_all [List.mem_map, Bool.and_eq_true, not_or, Int.not_lt]
  all_goals
    tauto

/-- C7 (amended): the materializer is insert-if-absent over the attempted
rows; every attempted row starts in status PLANNED with the composite
`TOUR:` idempotency key provenance; and an insert is attempted for a
(stop, display) pair iff some joined (tour, stop) row has the template
active, **that stop's** location active, a known weekday, a non-empty
parsed display set containing the display, and a resolver occurrence
within `[now − 1 day, now + horizonHours]`. -/
theorem materialize_attempts_characterization (now H : ℤ) (tours : List TourRow)
    (db : List Departure) :
    materialize_tours_to_departures now H tours db
      = (tours.flatMap (tour_row_departures now (hoursTd H))).foldl insert_departure db ∧
    (∀ d ∈ tours.flatMap (tour_row_departures now (hoursTd H)),
      d.status = .GEPLANT ∧ d.created_by = "TOUR_AUTO") ∧
    (∀ d, d ∈ tours.flatMap (tour_row_departures now (hoursTd H)) ↔
      ∃ r ∈ tours,
        r.tour_active = true ∧ r.location_active = true ∧
        parse_screen_ids r.tour_screen_ids ≠ [] ∧ r.weekday ∈ WEEKDAYS_DE ∧
        tour_row_occurrence now r - now ≤ hoursTd H ∧
        now - tour_row_occurrence now r ≤ daysTd 1 ∧
        ∃ sid ∈ parse_screen_ids r.tour_screen_ids,
          d = mkTourDeparture (tour_row_occurrence now r) r sid) := by
  refine ⟨materialize_eq_foldl now H tours db, ?_, ?_⟩
  · intro d hd
    rcases List.mem_flatMap.mp hd with ⟨r, _, hdr⟩
    rcases mem_tour_row_departures.mp hdr with ⟨-, -, -, -, -, -, sid, -, rfl⟩
    exact ⟨rfl, rfl⟩
  · intro d
    rw [List.mem_flatMap]
    constructor
    · rintro ⟨r, hr, hdr⟩
      exact ⟨r, hr, mem_tour_row_departures.mp hdr⟩
    · rintro ⟨r, hr, hc⟩
      exact ⟨r, hr, mem_tour_row_departures.mpr hc⟩

/-- A joined row of an active tour whose first stop has an active
location. -/
def exTourStop1 : TourRow :=
  { tour_id := 1, weekday := "Montag", hour := 8, minute := 0, tour_note := "",
    tour_active := true, tour_screen_ids := some "1", tour_countdown_enabled := 0,
    location_id := 1, position := 1, location_active := true }

/-- The second stop of the same tour, whose location is inactive. -/
def exTourStop2 : TourRow :=
  { tour_id := 1, weekday := "Montag", hour := 8, minute := 0, tour_note := "",
    tour_active := true, tour_screen_ids := some "1", tour_countdown_enabled := 0,
    location_id := 2, position := 2, location_active := false }

/-- C7 counterexample: a tour with two stops, one of whose locations is
inactive, still materializes the other stop — the active-location check is
per stop, not "every stop".  At now = Monday 00:00 the claim (which
requires every stop's location active) predicts no insert, yet the pass
inserts the first stop's departure. -/
theorem materialize_per_stop_counterexample :
    (∃ r ∈ [exTourStop1, exTourStop2], r.location_active = false) ∧
    materialize_tours_to_departures 0 MATERIALIZE_TOURS_HOURS_BEFORE
      [exTourStop1, exTourStop2] [] ≠ [] := by
  constructor
  · exact ⟨exTourStop2, by simp, rfl⟩
  · decide

/-- C7 witness: the characterization applied to the single-row tour list
shows the Monday-08:00 departure on screen 1 among the attempted
inserts. -/
theorem materialize_attempts_characterization_witness :
    mkTourDeparture (tour_row_occurrence 0 exTourStop1) exTourStop1 1
      ∈ [exTourStop1].flatMap (tour_row_departures 0 (hoursTd 12)) :=
  ((materialize_attempts_characterization 0 12 [exTourStop1] []).2.2 _).mpr
    ⟨exTourStop1, by simp, rfl, rfl, by decide, by decide, by decide, by decide,
      1, by decide, rfl⟩

/-! ### Claim C8: malformed templates -/

/-- A row with an empty parsed display list or an unknown weekday attempts
nothing. -/
lemma tour_row_departures_malformed {now window : ℤ} {r : TourRow}
    (h : parse_screen_ids r.tour_screen_ids = [] ∨ r.weekday ∉ WEEKDAYS_DE) :
    tour_row_departures now window r = [] := by
  unfold tour_row_departures
  split
  · rw [if_pos h]
  · rfl

/-- C8 (amended): a template row with an unknown weekday or an empty
display list is skipped for the pass without affecting the other templates
— removing it from the pass changes nothing; but a non-half-hour minute is
NOT skipped: such a row is materialized with its minute normalized to 0. -/
theorem malformed_template_skipped (now H : ℤ) (tours1 tours2 : List TourRow)
    (bad : TourRow)
    (hbad : parse_screen_ids bad.tour_screen_ids = [] ∨ bad.weekday ∉ WEEKDAYS_DE)
    (db : List Departure) :
    materialize_tours_to_departures now H (tours1 ++ bad :: tours2) db
      = materialize_tours_to_departures now H (tours1 ++ tours2) db ∧
    (∀ r : TourRow, r.minute ≠ 0 ∧ r.minute ≠ 30 →
      tour_row_occurrence now r = next_datetime_for_weekday_time now r.weekday r.hour 0) := by
  constructor
  · rw [materialize_eq_foldl, materialize_eq_foldl, List.flatMap_append,
      List.flatMap_append, List.flatMap_cons, tour_row_departures_malformed hbad,
      List.nil_append]
  · intro r hr
    unfold tour_row_occurrence tour_row_minute
    rw [if_neg (by tauto)]

/-- An otherwise well-formed joined tour row with the non-half-hour
minute 17. -/
def exTourMinute17 : TourRow :=
  { tour_id := 2, weekday := "Montag", hour := 8, minute := 17, tour_note := "",
    tour_active := true, tour_screen_ids := some "1", tour_countdown_enabled := 0,
    location_id := 1, position := 1, location_active := true }

/-- C8 counterexample: a template with minute = 17 (not a half-hour slot)
is NOT skipped — the pass at Monday 00:00 inserts a departure for it, at
the minute normalized to :00 (08:00). -/
theorem malformed_minute_counterexample :
    (exTourMinute17.minute ≠ 0 ∧ exTourMinute17.minute ≠ 30) ∧
    materialize_tours_to_departures 0 MATERIALIZE_TOURS_HOURS_BEFORE
      [exTourMinute17] [] ≠ [] ∧
    (∀ d ∈ materialize_tours_to_departures 0 MATERIALIZE_TOURS_HOURS_BEFORE
      [exTourMinute17] [], d.datetime % 3600 = 0) := by
  refine ⟨by decide, by decide, by decide⟩

/-- C8 witness: dropping a no-display-list row from a concrete pass leaves
the result unchanged. -/
theorem malformed_template_skipped_witness :
    materialize_tours_to_departures 0 12
        ([exTourStop1] ++
          { tour_id := 3, weekday := "Montag", hour := 9, minute := 0, tour_note := "",
            tour_active := true, tour_screen_ids := none, tour_countdown_enabled := 0,
            location_id := 1, position := 1, location_active := true } :: []) []
      = materialize_tours_to_departures 0 12 ([exTourStop1] ++ []) [] ∧
    (∀ r : TourRow, r.minute ≠ 0 ∧ r.minute ≠ 30 →
      tour_row_occurrence 0 r = next_datetime_for_weekday_time 0 r.weekday r.hour 0) :=
  malformed_template_skipped 0 12 [exTourStop1] []
    { tour_id := 3, weekday := "Montag", hour := 9, minute := 0, tour_note := "",
      tour_active := true, tour_screen_ids := none, tour_countdown_enabled := 0,
      location_id := 1, position := 1, location_active := true }
    (Or.inl rfl) []

end Abfahrten
